import Mathlib

/-!
Verification of the fee-rules console application (`src/orchestrator/rules_orchestrator.py`
together with the data model of `src/db/models.py`).

The orchestrator `run_orchestrator(agent_ids, rules_excel_path)`:
* checks the rule file exists (else raises `FileNotFoundError`),
* reads the rule table and checks the five required columns are present after
  lower-casing the headers (else raises `ValueError` carrying the missing set),
* queries the requested agents; if none match it returns `[]`,
* for each agent, queries its transactions; agents without transactions are
  skipped with `continue` (no entry in the result),
* for each rule row (table order), for each transaction (store order), builds a
  context from the comma-separated `fields_required`, evaluates the formula with
  `simple_eval`, and records one outcome per (rule, transaction) pair; any
  exception of the evaluation is caught and recorded as a failed outcome.

The embedding below mirrors that code.  Python float values are modelled as
exact rationals (`Rat`); every numeric literal appearing in the claims is a
small dyadic rational, where the two semantics agree.  The `simpleeval`
expression language is modelled by an abstract syntax tree `Expr` with the
Python operator semantics at the granularity the claims need; a formula
string that does not parse, or that uses a construct `simpleeval` refuses,
is modelled by the `Formula.malformed` constructor, since `simple_eval`
raises an exception in exactly those cases and the orchestrator only
observes the raised exception.
-/

/-- A Python runtime value as it can appear in an evaluation context or as the
result of `simple_eval`: `None`, a `bool`, a number (int/float, modelled as an
exact rational) or a string. -/
inductive Value where
  | vNone : Value
  | vBool (b : Bool) : Value
  | vNum (q : Rat) : Value
  | vStr (s : String) : Value
deriving DecidableEq, Repr

/-- Python truthiness, i.e. `bool(x)`: `None` and numeric zero are falsy, the
empty string is falsy, everything else here is truthy. -/
def truthy : Value → Bool
  | .vNone => false
  | .vBool b => b
  | .vNum q => q != 0
  | .vStr s => s != ""

/-- The Python numeric view of a value: `bool` is an `int` subclass, so `True`
and `False` act as `1` and `0` in arithmetic and comparisons; `None` and
strings are not numbers. -/
def asNum : Value → Option Rat
  | .vBool b => some (if b then 1 else 0)
  | .vNum q => some q
  | _ => none

/-- The binary operators `simpleeval` permits that the rules use: arithmetic
`+ - * / %` and comparisons `== != < <= > >=`. -/
inductive BinOp where
  | add | sub | mul | div | mod
  | eq | ne | lt | le | gt | ge
deriving DecidableEq, Repr

/-- Python `==`: cross-type numeric equality (`True == 1` holds), same-type
value equality otherwise; values of unrelated types are unequal, never an
error. -/
def pyEq (a b : Value) : Bool :=
  match asNum a, asNum b with
  | some x, some y => x == y
  | _, _ =>
    match a, b with
    | .vStr s, .vStr t => s == t
    | .vNone, .vNone => true
    | _, _ => false

/-- Numeric order comparison for `< <= > >=`. -/
def ratCmp : BinOp → Rat → Rat → Bool
  | .lt, x, y => decide (x < y)
  | .le, x, y => decide (x ≤ y)
  | .gt, x, y => decide (y < x)
  | .ge, x, y => decide (y ≤ x)
  | _, _, _ => false

/-- String order comparison (lexicographic by code point, as in Python). -/
def strCmp : BinOp → String → String → Bool
  | .lt, s, t => decide (s < t)
  | .le, s, t => decide (s ≤ t)
  | .gt, s, t => decide (t < s)
  | .ge, s, t => decide (t ≤ s)
  | _, _, _ => false

/-- Python comparison semantics: `==`/`!=` never fail; `< <= > >=` work on two
numbers (bools included) or two strings and raise `TypeError` on any other
combination — in particular comparing `None` with a number fails, which is
scenario C of the specification. -/
def pyCompare (op : BinOp) (a b : Value) : Except String Value :=
  match op with
  | .eq => .ok (.vBool (pyEq a b))
  | .ne => .ok (.vBool (!pyEq a b))
  | _ =>
    match asNum a, asNum b with
    | some x, some y => .ok (.vBool (ratCmp op x y))
    | _, _ =>
      match a, b with
      | .vStr s, .vStr t => .ok (.vBool (strCmp op s t))
      | _, _ => .error "TypeError: comparison not supported between these operand types"

/-- Python arithmetic on two values: defined on numbers (bools as 0/1), plus
string concatenation for `+`; division and modulo by zero raise; any other
combination raises `TypeError`.  Float modulo follows Python:
`x % y = x - y * floor(x / y)`. -/
def pyArith (op : BinOp) (a b : Value) : Except String Value :=
  match asNum a, asNum b with
  | some x, some y =>
    match op with
    | .add => .ok (.vNum (x + y))
    | .sub => .ok (.vNum (x - y))
    | .mul => .ok (.vNum (x * y))
    | .div => if y == 0 then .error "division by zero" else .ok (.vNum (x / y))
    | .mod => if y == 0 then .error "modulo by zero"
              else .ok (.vNum (x - y * ((x / y).floor : Rat)))
    | _ => .error "not an arithmetic operator"
  | _, _ =>
    match op, a, b with
    | .add, .vStr s, .vStr t => .ok (.vStr (s ++ t))
    | _, _, _ => .error "TypeError: unsupported operand types"

/-- Dispatch a binary operator to arithmetic or comparison semantics. -/
def applyBin (op : BinOp) (a b : Value) : Except String Value :=
  match op with
  | .add | .sub | .mul | .div | .mod => pyArith op a b
  | _ => pyCompare op a b

/-- Abstract syntax of a well-formed rule formula as `simpleeval` parses it:
literal constants, names resolved in the supplied context, binary
arithmetic/comparison, unary minus, and `not`/`and`/`or`. -/
inductive Expr where
  | lit (v : Value) : Expr
  | name (s : String) : Expr
  | binop (op : BinOp) (a b : Expr) : Expr
  | neg (a : Expr) : Expr
  | notOp (a : Expr) : Expr
  | andOp (a b : Expr) : Expr
  | orOp (a b : Expr) : Expr
deriving DecidableEq, Repr

/-- Name lookup in an evaluation context (assoc list mirroring the Python
`dict` passed as `names=context`; `buildContext` puts each field name in
once, value a function of the name alone, so first-match lookup agrees with
the dict). -/
def lookupName (ctx : List (String × Value)) (s : String) : Option Value :=
  match ctx.find? (fun p => p.fst == s) with
  | some p => some p.snd
  | none => none

/-- Evaluation of a parsed formula, mirroring `simpleeval`: a name missing
from the context raises `NameNotDefined`; operator failures propagate;
`and`/`or` short-circuit on truthiness and return an operand, `not` returns a
`bool`. -/
def evalExpr : Expr → List (String × Value) → Except String Value
  | .lit v, _ => .ok v
  | .name s, ctx =>
    match lookupName ctx s with
    | some v => .ok v
    | none => .error ("NameNotDefined: " ++ s ++ " is not defined")
  | .binop op a b, ctx => do
    let va ← evalExpr a ctx
    let vb ← evalExpr b ctx
    applyBin op va vb
  | .neg a, ctx => do
    let va ← evalExpr a ctx
    match asNum va with
    | some x => .ok (.vNum (-x))
    | none => .error "TypeError: bad operand type for unary minus"
  | .notOp a, ctx => do
    let va ← evalExpr a ctx
    .ok (.vBool (!truthy va))
  | .andOp a b, ctx => do
    let va ← evalExpr a ctx
    if truthy va then evalExpr b ctx else .ok va
  | .orOp a b, ctx => do
    let va ← evalExpr a ctx
    if truthy va then .ok va else evalExpr b ctx

/-- A formula cell of the rule table.  `parsed e` is a formula string that
`simpleeval` parses to the tree `e`; `malformed msg` is a formula string on
which `simpleeval` raises before evaluating (syntax error or disallowed
construct), `msg` the exception text. -/
inductive Formula where
  | parsed (e : Expr) : Formula
  | malformed (msg : String) : Formula
deriving Repr

/-- Line 79, `simple_eval(formula, names=context)`: raises (modelled as `Except.error`)
on a malformed formula, otherwise evaluates the parsed tree. -/
def simple_eval (f : Formula) (ctx : List (String × Value)) : Except String Value :=
  match f with
  | .malformed msg => .error msg
  | .parsed e => evalExpr e ctx

/-- An agent row (`Agent` in `src/db/models.py`): integer primary key and a
name. -/
structure Agent where
  id : Int
  name : String
deriving DecidableEq, Repr

/-- A transaction row (`Transaction` in `src/db/models.py`).  The string and
float columns are nullable, hence `Option`; `none` is SQL `NULL`, read back
as Python `None`. -/
structure Transaction where
  id : Int
  agent_id : Int
  origen : Option String
  destino : Option String
  monto_origen : Option Rat
  monto_destino : Option Rat
  fee_total : Option Rat
  fee_maxi : Option Rat
  fee_operacion : Option Rat
  fee_proveedor : Option Rat
deriving DecidableEq, Repr

/-- The value of a nullable column as the Python attribute exposes it. -/
def colNum (o : Option Rat) : Value :=
  match o with
  | some q => .vNum q
  | none => .vNone

/-- The value of a nullable string column as the Python attribute exposes it. -/
def colStr (o : Option String) : Value :=
  match o with
  | some s => .vStr s
  | none => .vNone

/-- Lines 73–74, `hasattr(tx, field)` / `getattr(tx, field)` over the mapped columns of
`Transaction`: `some v` when the attribute exists (its value may be the
Python `None` of a NULL column), `none` when the transaction has no such
attribute. -/
def txAttr (tx : Transaction) (field : String) : Option Value :=
  if field = "id" then some (.vNum tx.id)
  else if field = "agent_id" then some (.vNum tx.agent_id)
  else if field = "origen" then some (colStr tx.origen)
  else if field = "destino" then some (colStr tx.destino)
  else if field = "monto_origen" then some (colNum tx.monto_origen)
  else if field = "monto_destino" then some (colNum tx.monto_destino)
  else if field = "fee_total" then some (colNum tx.fee_total)
  else if field = "fee_maxi" then some (colNum tx.fee_maxi)
  else if field = "fee_operacion" then some (colNum tx.fee_operacion)
  else if field = "fee_proveedor" then some (colNum tx.fee_proveedor)
  else none

/-- Lines 71–76: the context built per (transaction, rule) pair — each
required field maps to the attribute value when the attribute exists, and to
`None` otherwise. -/
def buildContext (tx : Transaction) (fields : List String) : List (String × Value) :=
  fields.map (fun field =>
    (field, match txAttr tx field with
            | some v => v
            | none => Value.vNone))

/-- Python `str.split(",")`: split at every comma; the empty string yields
`[""]`, a trailing comma yields a trailing `""`. -/
def splitCommaAux : List Char → List Char → List String
  | [], acc => [String.mk acc.reverse]
  | c :: rest, acc =>
    if c = ',' then String.mk acc.reverse :: splitCommaAux rest []
    else splitCommaAux rest (c :: acc)

/-- The split `cell.split(",")` over the characters of the cell. -/
def pySplitComma (s : String) : List String := splitCommaAux s.data []

/-- The whitespace characters Python `str.strip()` removes on ASCII text:
space, tab, newline, carriage return, vertical tab and form feed. -/
def isPyWhitespace (c : Char) : Bool :=
  c = ' ' || c = '\t' || c = '\n' || c = '\r' || c = '\x0b' || c = '\x0c'

/-- Python `str.strip()`: drop leading and trailing whitespace. -/
def pyStrip (s : String) : String :=
  String.mk (((s.data.dropWhile isPyWhitespace).reverse.dropWhile isPyWhitespace).reverse)

/-- Line 64: `[f.strip() for f in str(cell).split(",")]`. -/
def parse_fields_required (cell : String) : List String :=
  (pySplitComma cell).map pyStrip

/-- One row of the rule table after the headers have been lower-cased (line
37), with the cells the orchestrator reads.  `message_on_fail = none` models
a blank Excel cell, which `pandas.read_excel` reads as the float `NaN`. -/
structure RuleRow where
  rule_id : String
  description : String
  fields_required : String
  formula : Formula
  message_on_fail : Option String
deriving Repr

/-- Line 65: `rule.get("message_on_fail", "Validación fallida")`.  After the
required-column check the row always has the `message_on_fail` key, so the
pandas `Series.get` default never fires; a blank cell yields `NaN`, which the
f-string on line 84 renders as the text `nan`. -/
def fail_message (row : RuleRow) : String :=
  match row.message_on_fail with
  | some s => s
  | none => "nan"

/-- One recorded validation outcome (the dict appended on lines 80–92). -/
structure ValidationOutcome where
  transaction_id : Int
  rule_id : String
  ok : Bool
  message : String
deriving DecidableEq, Repr

/-- Lines 69–92, the body of the transaction loop for one (rule, transaction)
pair: build the context, run `simple_eval`, and produce the outcome dict; the
`except` branch catches every evaluation exception and records it with
`ok=False` and a message naming the rule id. -/
def validate_pair (rule : RuleRow) (tx : Transaction) : ValidationOutcome :=
  let context := buildContext tx (parse_fields_required rule.fields_required)
  match simple_eval rule.formula context with
  | .ok result =>
    { transaction_id := tx.id
      rule_id := rule.rule_id
      ok := truthy result
      message := if truthy result then "✅ OK" else "❌ " ++ fail_message rule }
  | .error e =>
    { transaction_id := tx.id
      rule_id := rule.rule_id
      ok := false
      message := "⚠️ Error evaluando regla " ++ rule.rule_id ++ ": " ++ e }

/-- The read-only record store: the agents table and the transactions table,
each in primary-key (store-returned) order. -/
structure Store where
  agents : List Agent
  transactions : List Transaction
deriving Repr

/-- Line 42: `db.query(Agent).filter(Agent.id.in_(agent_ids)).all()`. -/
def queryAgents (store : Store) (agent_ids : List Int) : List Agent :=
  store.agents.filter (fun a => agent_ids.contains a.id)

/-- Line 55: `db.query(Transaction).filter(Transaction.agent_id == agent.id).all()`. -/
def queryTxs (store : Store) (aid : Int) : List Transaction :=
  store.transactions.filter (fun t => t.agent_id == aid)

/-- The rule table as `pandas.read_excel` returns it: the raw column headers
and the data rows (typed by the columns the orchestrator reads). -/
structure RulesFile where
  headers : List String
  rows : List RuleRow

/-- Line 31: the required column set. -/
def requiredColumns : Finset String :=
  {"rule_id", "description", "fields_required", "formula", "message_on_fail"}

/-- Python `str.lower()` on a column header, character by character (column
headers are ASCII, where Python and `Char.toLower` agree). -/
def pyLower (s : String) : String := String.mk (s.data.map Char.toLower)

/-- Line 32: `required_columns - set(df_rules.columns.str.lower())`. -/
def missingColumns (headers : List String) : Finset String :=
  requiredColumns \ (headers.map pyLower).toFinset

/-- The fatal errors `run_orchestrator` raises: `FileNotFoundError` when the
rule file path does not exist (line 26; the message carries the path), and
`ValueError` carrying the missing-column set (line 34). -/
inductive OrchError where
  | ruleSourceNotFound : OrchError
  | missingRuleColumns (cols : Finset String) : OrchError
deriving DecidableEq

/-- One entry of the result list (lines 49–53 and 94). -/
structure AgentResult where
  agent_id : Int
  agent_name : String
  validations : List ValidationOutcome
deriving DecidableEq, Repr

/-- The complete output of one run. -/
abbrev RunResult := List AgentResult

/-- Lines 60–92: the validations accumulated for one agent — for each rule in
table order, for each transaction in store order, one outcome. -/
def agentValidations (file : RulesFile) (transactions : List Transaction) :
    List ValidationOutcome :=
  file.rows.flatMap (fun rule => transactions.map (fun tx => validate_pair rule tx))

/-- Lines 47–94 for a single agent: agents without transactions are skipped
(`continue`, line 58) and produce no entry; the rest produce their
`AgentResult`. -/
def processAgent (file : RulesFile) (store : Store) (agent : Agent) :
    Option AgentResult :=
  let transactions := queryTxs store agent.id
  if transactions.isEmpty then none
  else some { agent_id := agent.id
              agent_name := agent.name
              validations := agentValidations file transactions }

/-- The orchestrator `run_orchestrator(agent_ids, rules_excel_path)` (lines 20–97).
`ruleSource = none` models a `rules_excel_path` that does not exist, `some
file` the table `pandas.read_excel` reads from an existing path.  The store
is passed explicitly in place of the database session. -/
def run_orchestrator (ruleSource : Option RulesFile) (store : Store)
    (agent_ids : List Int) : Except OrchError RunResult :=
  match ruleSource with
  | none => .error .ruleSourceNotFound
  | some file =>
    if missingColumns file.headers ≠ ∅ then
      .error (.missingRuleColumns (missingColumns file.headers))
    else
      let agents := queryAgents store agent_ids
      if agents.isEmpty then .ok []
      else .ok (agents.filterMap (processAgent file store))

/-- The rational one half (the float 0.5 of the scenarios, which is exactly
representable). -/
def half : Rat := ⟨1, 2, by decide, Nat.coprime_one_left 2⟩

/-- The rational one quarter (the float 0.25). -/
def quarter : Rat := ⟨1, 4, by decide, Nat.coprime_one_left 4⟩

/-- Transaction 7 of scenario A: fee_total 2.0, fee_maxi 1.0. -/
def exTx7 : Transaction :=
  { id := 7, agent_id := 1, origen := some "USD", destino := some "COP",
    monto_origen := some 100, monto_destino := some 400000,
    fee_total := some 2, fee_maxi := some 1,
    fee_operacion := some half, fee_proveedor := some half }

/-- Transaction 8 of scenario B: fee_total 0.5, fee_maxi 1.0. -/
def exTx8 : Transaction :=
  { id := 8, agent_id := 1, origen := some "USD", destino := some "COP",
    monto_origen := some 100, monto_destino := some 400000,
    fee_total := some half, fee_maxi := some 1,
    fee_operacion := some quarter, fee_proveedor := some quarter }

/-- The rule of scenarios A and B. -/
def exRuleR1 : RuleRow :=
  { rule_id := "R1", description := "fee_total at least fee_maxi",
    fields_required := "fee_total,fee_maxi",
    formula := .parsed (.binop .ge (.name "fee_total") (.name "fee_maxi")),
    message_on_fail := some "fee_total too low" }

/-- A rule table with exactly the required headers. -/
def exHeaders : List String :=
  ["rule_id", "description", "fields_required", "formula", "message_on_fail"]

/-- The one-rule table of scenarios A and B. -/
def exFile : RulesFile := { headers := exHeaders, rows := [exRuleR1] }

/-- A store with one agent owning transactions 7 and 8. -/
def exStore : Store :=
  { agents := [{ id := 1, name := "Agente 1" }],
    transactions := [exTx7, exTx8] }

/-- A second store, used to state that a failed rule load is independent of
the store contents. -/
def exStore2 : Store := { agents := [], transactions := [] }

/-- A rule table whose headers (here with mixed case) lack the `formula`
column. -/
def exBadFile : RulesFile :=
  { headers := ["Rule_ID", "description", "fields_required", "message_on_fail"],
    rows := [] }

/-- With a well-formed rule table, the run reduces to mapping `processAgent`
over the queried agents (the `if not agents` early return and the main loop
produce the same value when the query is empty). -/
theorem run_orchestrator_ok (file : RulesFile) (store : Store) (ids : List Int)
    (hcols : missingColumns file.headers = ∅) :
    run_orchestrator (some file) store ids =
      Except.ok ((queryAgents store ids).filterMap (processAgent file store)) := by
  show (if missingColumns file.headers ≠ ∅ then _ else _) = _
  rw [if_neg (by simp [hcols])]
  cases hq : queryAgents store ids with
  | nil => simp [hq]
  | cons a t => simp [hq]

/-- C2: for every rule source whose lower-cased headers do not include all
five required columns, loading fails with the missing-columns error naming
exactly the set difference of the required set against the normalized
headers; when no column is missing this error is never raised. -/
theorem missing_columns_set_difference (file : RulesFile) (store : Store)
    (ids : List Int) :
    (missingColumns file.headers ≠ ∅ →
      run_orchestrator (some file) store ids =
        Except.error (OrchError.missingRuleColumns
          (requiredColumns \ (file.headers.map pyLower).toFinset))) ∧
    (missingColumns file.headers = ∅ →
      ∀ cols, run_orchestrator (some file) store ids ≠
        Except.error (OrchError.missingRuleColumns cols)) := by
  constructor
  · intro h
    show (if missingColumns file.headers ≠ ∅ then _ else _) = _
    rw [if_pos h]
    rfl
  · intro h cols
    rw [run_orchestrator_ok file store ids h]
    simp

/-- Witness for C2: the table `exBadFile` (headers `Rule_ID, description,
fields_required, message_on_fail`) fails naming exactly `formula`, and the
well-formed table `exFile` never raises the missing-columns error. -/
theorem missing_columns_set_difference_witness :
    (missingColumns exBadFile.headers ≠ ∅ ∧
      run_orchestrator (some exBadFile) exStore [1] =
        Except.error (OrchError.missingRuleColumns
          (requiredColumns \ (exBadFile.headers.map pyLower).toFinset)) ∧
      requiredColumns \ (exBadFile.headers.map pyLower).toFinset =
        {"formula"}) ∧
    (missingColumns exFile.headers = ∅ ∧
      ∀ cols, run_orchestrator (some exFile) exStore [1] ≠
        Except.error (OrchError.missingRuleColumns cols)) :=
  ⟨⟨by decide,
    (missing_columns_set_difference exBadFile exStore [1]).1 (by decide),
    by decide⟩,
   ⟨by decide,
    (missing_columns_set_difference exFile exStore [1]).2 (by decide)⟩⟩

/-- C8: when none of the requested agent ids exists in the store, the run
returns an empty result and raises no error (given the rule source itself
loads, which line 42 requires before the query runs). -/
theorem no_matching_agents_empty_result (file : RulesFile) (store : Store)
    (ids : List Int)
    (hcols : missingColumns file.headers = ∅)
    (hnone : ∀ a ∈ store.agents, a.id ∉ ids) :
    run_orchestrator (some file) store ids = Except.ok [] := by
  have hq : queryAgents store ids = [] := by
    rw [queryAgents, List.filter_eq_nil_iff]
    intro a ha
    simpa using hnone a ha
  rw [run_orchestrator_ok file store ids hcols, hq]
  rfl

/-- Witness for C8: scenario D, requested agent ids `[999]` absent from the
store. -/
theorem no_matching_agents_empty_result_witness :
    run_orchestrator (some exFile) exStore [999] = Except.ok [] :=
  no_matching_agents_empty_result exFile exStore [999] (by decide) (by decide)

/-- C9: a missing rule file aborts the run with `ruleSourceNotFound`, a table
with missing required columns aborts it with `missingRuleColumns`, in both
cases with an error and not a (partial) result, and the outcome is the same
for any two stores — the rule source is loaded and validated before the
store is consulted. -/
theorem rule_load_precedes_store_access (src : Option RulesFile)
    (store store2 : Store) (ids : List Int)
    (hbad : src = none ∨
      ∃ file, src = some file ∧ missingColumns file.headers ≠ ∅) :
    (src = none →
      run_orchestrator src store ids = Except.error OrchError.ruleSourceNotFound) ∧
    (∀ file, src = some file →
      run_orchestrator src store ids =
        Except.error (OrchError.missingRuleColumns (missingColumns file.headers))) ∧
    run_orchestrator src store ids = run_orchestrator src store2 ids := by
  rcases hbad with h | ⟨file, hsrc, hcols⟩
  · subst h
    exact ⟨fun _ => rfl, ⟨fun file hf => Option.noConfusion hf, rfl⟩⟩
  · subst hsrc
    have hrun : ∀ st : Store, run_orchestrator (some file) st ids =
        Except.error (OrchError.missingRuleColumns (missingColumns file.headers)) := by
      intro st
      show (if missingColumns file.headers ≠ ∅ then _ else _) = _
      rw [if_pos hcols]
    refine ⟨fun h => Option.noConfusion h, ?_, by rw [hrun store, hrun store2]⟩
    intro file2 hf
    cases hf
    exact hrun store

/-- Witness for C9: the table missing the `formula` column aborts the run
identically over two different stores. -/
theorem rule_load_precedes_store_access_witness :
    run_orchestrator (some exBadFile) exStore [1] =
      Except.error (OrchError.missingRuleColumns (missingColumns exBadFile.headers)) ∧
    run_orchestrator (some exBadFile) exStore [1] =
      run_orchestrator (some exBadFile) exStore2 [1] :=
  ⟨(rule_load_precedes_store_access (some exBadFile) exStore exStore2 [1]
      (Or.inr ⟨exBadFile, rfl, by decide⟩)).2.1 exBadFile rfl,
   (rule_load_precedes_store_access (some exBadFile) exStore exStore2 [1]
      (Or.inr ⟨exBadFile, rfl, by decide⟩)).2.2⟩

/-- A rule whose formula references a name absent from its own required
fields, so every evaluation of it raises `NameNotDefined`. -/
def exRuleUnknown : RuleRow :=
  { rule_id := "R9", description := "references an unknown name",
    fields_required := "fee_total",
    formula := .parsed (.binop .gt (.name "does_not_exist") (.lit (.vNum 0))),
    message_on_fail := some "nope" }

/-- C1: evaluation failures are isolated per (transaction, rule) pair.  With a
loadable rule table the run always returns a result (never an evaluation
error), every (rule, transaction) pair of every processed agent contributes
its outcome, and whenever `simple_eval` fails the recorded outcome has
`ok = false` with a message embedding the offending rule id. -/
theorem eval_failure_isolated (file : RulesFile) (store : Store) (ids : List Int)
    (hcols : missingColumns file.headers = ∅) :
    (∃ rs, run_orchestrator (some file) store ids = Except.ok rs ∧
      ∀ agent ∈ queryAgents store ids, ∀ rule ∈ file.rows,
        ∀ tx ∈ queryTxs store agent.id,
          ∃ ar ∈ rs, validate_pair rule tx ∈ ar.validations) ∧
    (∀ rule tx e,
      simple_eval rule.formula
          (buildContext tx (parse_fields_required rule.fields_required)) =
        Except.error e →
      (validate_pair rule tx).ok = false ∧
      ∃ pre post, (validate_pair rule tx).message = pre ++ rule.rule_id ++ post) := by
  constructor
  · refine ⟨_, run_orchestrator_ok file store ids hcols, ?_⟩
    intro agent hag rule hr tx htx
    have hne : queryTxs store agent.id ≠ [] := List.ne_nil_of_mem htx
    refine ⟨{ agent_id := agent.id, agent_name := agent.name,
              validations := agentValidations file (queryTxs store agent.id) }, ?_, ?_⟩
    · exact List.mem_filterMap.mpr ⟨agent, hag, by simp [processAgent, hne]⟩
    · exact List.mem_flatMap.mpr ⟨rule, hr, List.mem_map_of_mem _ htx⟩
  · intro rule tx e h
    have hv : validate_pair rule tx =
        { transaction_id := tx.id, rule_id := rule.rule_id, ok := false,
          message := "⚠️ Error evaluando regla " ++ rule.rule_id ++ ": " ++ e } := by
      simp only [validate_pair]
      rw [h]
    rw [hv]
    exact ⟨rfl, "⚠️ Error evaluando regla ", ": " ++ e, by
      simp [String.append_assoc]⟩

/-- Witness for C1: the rule `exRuleUnknown` fails on transaction 7 with a
`NameNotDefined` error, its outcome has `ok = false` and names rule `R9`. -/
theorem eval_failure_isolated_witness :
    simple_eval exRuleUnknown.formula
        (buildContext exTx7 (parse_fields_required exRuleUnknown.fields_required)) =
      Except.error "NameNotDefined: does_not_exist is not defined" ∧
    (validate_pair exRuleUnknown exTx7).ok = false ∧
    (∃ pre post,
      (validate_pair exRuleUnknown exTx7).message = pre ++ exRuleUnknown.rule_id ++ post) := by
  refine ⟨rfl, ?_⟩
  exact (eval_failure_isolated exFile exStore [1] (by decide)).2
    exRuleUnknown exTx7 "NameNotDefined: does_not_exist is not defined" rfl

/-- C3: for each processed agent, the validation list is exactly the
rule-major nest — all transactions of rule 1 in store order, then all of rule
2, and so on, one outcome per (rule, transaction) pair. -/
theorem validations_rule_major_order (file : RulesFile) (store : Store)
    (ids : List Int) (agent : Agent)
    (hcols : missingColumns file.headers = ∅)
    (hag : agent ∈ queryAgents store ids)
    (htx : queryTxs store agent.id ≠ []) :
    ∃ rs, run_orchestrator (some file) store ids = Except.ok rs ∧
      ({ agent_id := agent.id, agent_name := agent.name,
         validations := file.rows.flatMap (fun rule =>
           (queryTxs store agent.id).map (fun tx => validate_pair rule tx)) } :
        AgentResult) ∈ rs := by
  refine ⟨_, run_orchestrator_ok file store ids hcols, ?_⟩
  exact List.mem_filterMap.mpr ⟨agent, hag, by simp [processAgent, htx, agentValidations]⟩

/-- Witness for C3 at the one-agent scenario store. -/
theorem validations_rule_major_order_witness :
    ∃ rs, run_orchestrator (some exFile) exStore [1] = Except.ok rs ∧
      ({ agent_id := 1, agent_name := "Agente 1",
         validations := exFile.rows.flatMap (fun rule =>
           (queryTxs exStore (1 : Int)).map (fun tx => validate_pair rule tx)) } :
        AgentResult) ∈ rs :=
  validations_rule_major_order exFile exStore [1] { id := 1, name := "Agente 1" }
    (by decide) (by decide) (by decide)

/-- A store where agent 1 owns transactions 7 and 8 and agent 2 owns no
transaction. -/
def exStore3 : Store :=
  { agents := [{ id := 1, name := "Agente 1" }, { id := 2, name := "Agente 2" }],
    transactions := [exTx7, exTx8] }

/-- The agent ids of the produced results are exactly the ids of the queried
agents that have at least one transaction, in query order. -/
theorem filterMap_processAgent_map_id (file : RulesFile) (store : Store)
    (l : List Agent) :
    (l.filterMap (processAgent file store)).map AgentResult.agent_id =
      (l.filter (fun a => !(queryTxs store a.id).isEmpty)).map Agent.id := by
  induction l with
  | nil => rfl
  | cons a t ih =>
    by_cases h : (queryTxs store a.id).isEmpty
    · simp [processAgent, h, ih]
    · simp [processAgent, h, ih]

/-- C4: among queried agents (whose ids are distinct, as they come from the
primary-key column), an agent with zero transactions contributes no
`AgentResult` at all, and an agent with at least one transaction contributes
exactly one. -/
theorem zero_tx_agent_omitted (file : RulesFile) (store : Store) (ids : List Int)
    (agent : Agent)
    (hcols : missingColumns file.headers = ∅)
    (hnodup : ((queryAgents store ids).map Agent.id).Nodup)
    (hag : agent ∈ queryAgents store ids) :
    ∃ rs, run_orchestrator (some file) store ids = Except.ok rs ∧
      (rs.map AgentResult.agent_id).count agent.id =
        (if queryTxs store agent.id = [] then 0 else 1) := by
  refine ⟨_, run_orchestrator_ok file store ids hcols, ?_⟩
  rw [filterMap_processAgent_map_id]
  have hsubnd : ((queryAgents store ids).filter
      (fun a => !(queryTxs store a.id).isEmpty)).map Agent.id |>.Nodup :=
    List.Nodup.sublist (List.Sublist.map Agent.id (List.filter_sublist _)) hnodup
  by_cases h : queryTxs store agent.id = []
  · rw [if_pos h]
    apply List.count_eq_zero.mpr
    intro hmem
    rcases List.mem_map.mp hmem with ⟨a2, ha2, hid⟩
    have ha2q : a2 ∈ queryAgents store ids := (List.mem_filter.mp ha2).1
    have ha2ne : !(queryTxs store a2.id).isEmpty := (List.mem_filter.mp ha2).2
    have : a2 = agent := List.inj_on_of_nodup_map hnodup ha2q hag hid
    subst this
    rw [h] at ha2ne
    simp at ha2ne
  · rw [if_neg h]
    apply List.count_eq_one_of_mem hsubnd
    exact List.mem_map.mpr
      ⟨agent, List.mem_filter.mpr ⟨hag, by simp [h]⟩, rfl⟩

/-- Witness for C4: with agents 1 (two transactions) and 2 (none) requested,
agent 2 is omitted (count 0) and agent 1 appears exactly once (count 1). -/
theorem zero_tx_agent_omitted_witness :
    ((∃ rs, run_orchestrator (some exFile) exStore3 [1, 2] = Except.ok rs ∧
        (rs.map AgentResult.agent_id).count 2 =
          (if queryTxs exStore3 2 = [] then 0 else 1)) ∧
      (if queryTxs exStore3 2 = [] then (0 : Nat) else 1) = 0) ∧
    ((∃ rs, run_orchestrator (some exFile) exStore3 [1, 2] = Except.ok rs ∧
        (rs.map AgentResult.agent_id).count 1 =
          (if queryTxs exStore3 1 = [] then 0 else 1)) ∧
      (if queryTxs exStore3 1 = [] then (0 : Nat) else 1) = 1) :=
  ⟨⟨zero_tx_agent_omitted exFile exStore3 [1, 2] { id := 2, name := "Agente 2" }
      (by decide) (by decide) (by decide), by decide⟩,
   ⟨zero_tx_agent_omitted exFile exStore3 [1, 2] { id := 1, name := "Agente 1" }
      (by decide) (by decide) (by decide), by decide⟩⟩

/-- A rule whose formula is the string literal `"x"`, so evaluation succeeds
with a non-boolean, non-numeric value. -/
def exRuleStr : RuleRow :=
  { rule_id := "RS", description := "formula evaluating to a string",
    fields_required := "fee_total",
    formula := .parsed (.lit (.vStr "x")),
    message_on_fail := some "msg" }

/-- Counterexample to C5 as stated: the formula of `exRuleStr` evaluates
successfully to the string `"x"`, and line 83 coerces it with `bool(...)` to
a passing outcome instead of failing the evaluation. -/
theorem nonbool_result_not_failed :
    simple_eval exRuleStr.formula
        (buildContext exTx7 (parse_fields_required exRuleStr.fields_required)) =
      Except.ok (Value.vStr "x") ∧
    (validate_pair exRuleStr exTx7).ok = true ∧
    (validate_pair exRuleStr exTx7).message = "✅ OK" :=
  ⟨rfl, rfl, rfl⟩

/-- C5 (amended): every successful evaluation result — boolean, numeric, or
any other value such as a string — is coerced to the outcome boolean by
Python truthiness: numeric zero is false, any other number is true, booleans
stand for themselves, and a non-boolean non-numeric result is coerced the
same way (empty string and `None` falsy, other strings truthy) rather than
failing the evaluation. -/
theorem success_coerced_by_truthiness (rule : RuleRow) (tx : Transaction)
    (v : Value)
    (h : simple_eval rule.formula
        (buildContext tx (parse_fields_required rule.fields_required)) =
      Except.ok v) :
    (validate_pair rule tx).ok = truthy v ∧
    truthy (Value.vNum 0) = false ∧
    (∀ q : Rat, truthy (Value.vNum q) = (q != 0)) ∧
    (∀ b : Bool, truthy (Value.vBool b) = b) ∧
    (∀ s : String, truthy (Value.vStr s) = (s != "")) ∧
    truthy Value.vNone = false := by
  refine ⟨?_, rfl, fun q => rfl, fun b => rfl, fun s => rfl, rfl⟩
  simp only [validate_pair]
  rw [h]

/-- Witness for the amended C5 at scenario A, whose formula evaluates to the
boolean true. -/
theorem success_coerced_by_truthiness_witness :
    (validate_pair exRuleR1 exTx7).ok = truthy (Value.vBool true) ∧
    truthy (Value.vNum 0) = false ∧
    (∀ q : Rat, truthy (Value.vNum q) = (q != 0)) ∧
    (∀ b : Bool, truthy (Value.vBool b) = b) ∧
    (∀ s : String, truthy (Value.vStr s) = (s != "")) ∧
    truthy Value.vNone = false :=
  success_coerced_by_truthiness exRuleR1 exTx7 (Value.vBool true) rfl

/-- Counterexample to C6 as stated: the passing outcome of scenario A carries
the message `✅ OK` (the success marker of line 84), not the bare string
`OK`. -/
theorem scenario_a_message_has_marker :
    (validate_pair exRuleR1 exTx7).message = "✅ OK" ∧
    (validate_pair exRuleR1 exTx7).message ≠ "OK" :=
  ⟨rfl, by decide⟩

/-- C6 (amended): scenarios A and B produce exactly the claimed outcomes
except that the success message is the marker string `✅ OK` (which contains
`OK`) and the failure message is `❌ fee_total too low`, the configured fail
text behind the failure marker. -/
theorem scenario_ab_outcomes :
    run_orchestrator (some exFile) exStore [1] =
      Except.ok [{ agent_id := 1, agent_name := "Agente 1",
                   validations :=
                     [{ transaction_id := 7, rule_id := "R1", ok := true,
                        message := "✅ OK" },
                      { transaction_id := 8, rule_id := "R1", ok := false,
                        message := "❌ fee_total too low" }] }] ∧
    (∃ pre post, "❌ fee_total too low" = pre ++ "fee_total too low" ++ post) ∧
    (∃ pre post, "✅ OK" = pre ++ "OK" ++ post) :=
  ⟨rfl, ⟨"❌ ", "", rfl⟩, ⟨"✅ ", "", rfl⟩⟩

/-- A rule whose `message_on_fail` cell is blank and whose formula is the
constant `False`, so every evaluation produces a failing outcome. -/
def exRuleBlank : RuleRow :=
  { rule_id := "RB", description := "blank failure message",
    fields_required := "fee_total",
    formula := .parsed (.lit (.vBool false)),
    message_on_fail := none }

/-- C7: the code at the failing input.  A loaded rule with a blank
`message_on_fail` cell produces the failure message `❌ nan` — the pandas
`NaN` of the blank cell rendered by the f-string — not the generic
`Validación fallida` default of line 65, which can only fire for a row
without the key and is unreachable after the required-column check.  (No
error is raised, as the claim also states.) -/
theorem blank_fail_message_renders_nan :
    (validate_pair exRuleBlank exTx7).ok = false ∧
    (validate_pair exRuleBlank exTx7).message = "❌ nan" ∧
    (validate_pair exRuleBlank exTx7).message ≠ "❌ Validación fallida" :=
  ⟨rfl, rfl, by decide⟩

/-- The characters of a fail-marker message: `❌`, a space, then the fail
text. -/
theorem failMarkerData (s : String) :
    ("❌ " ++ s).data = '❌' :: ' ' :: s.data := by
  rw [String.data_append]
  rfl

/-- The characters of an evaluation-error message start with `⚠`. -/
theorem err_head (rid e : String) :
    ∃ l, ("⚠️ Error evaluando regla " ++ rid ++ ": " ++ e).data = '⚠' :: l := by
  refine ⟨(("⚠️ Error evaluando regla ".data.tail ++ rid.data) ++ ": ".data) ++
    e.data, ?_⟩
  rw [String.data_append, String.data_append, String.data_append]
  rw [show "⚠️ Error evaluando regla ".data =
        '⚠' :: "⚠️ Error evaluando regla ".data.tail from rfl]
  simp [List.cons_append]

/-- A string whose first character differs from `✅` is not the success
marker. -/
theorem ne_marker_of_head {msg : String} {c : Char} {l : List Char}
    (hdata : msg.data = c :: l) (hc : c ≠ '✅') : msg ≠ "✅ OK" := by
  intro h
  rw [h] at hdata
  rw [show "✅ OK".data = ['✅', ' ', 'O', 'K'] from rfl] at hdata
  injection hdata with h4 _
  exact hc h4.symm

/-- A string with a first character is not empty. -/
theorem ne_empty_of_head {msg : String} {c : Char} {l : List Char}
    (hdata : msg.data = c :: l) : msg ≠ "" := by
  intro h
  rw [h] at hdata
  exact List.noConfusion hdata

/-- C10: for every produced outcome, `ok = true` holds exactly when the
message is the fixed success marker `✅ OK`; when `ok = false` the message is
either the configured failure text behind the `❌ ` marker or an
evaluation-error diagnostic embedding the rule id, and the message is never
empty and never the success marker on failure.  (`ok` is a boolean by the
type of the field.) -/
theorem outcome_message_invariant (rule : RuleRow) (tx : Transaction) :
    ((validate_pair rule tx).ok = true ↔
      (validate_pair rule tx).message = "✅ OK") ∧
    ((validate_pair rule tx).ok = false →
      ((validate_pair rule tx).message = "❌ " ++ fail_message rule ∨
       ∃ e, (validate_pair rule tx).message =
         "⚠️ Error evaluando regla " ++ rule.rule_id ++ ": " ++ e)) ∧
    (validate_pair rule tx).message ≠ "" ∧
    ((validate_pair rule tx).ok = false →
      (validate_pair rule tx).message ≠ "✅ OK") := by
  rcases heval : simple_eval rule.formula
      (buildContext tx (parse_fields_required rule.fields_required)) with e | v
  · have hv : validate_pair rule tx =
        { transaction_id := tx.id, rule_id := rule.rule_id, ok := false,
          message := "⚠️ Error evaluando regla " ++ rule.rule_id ++ ": " ++ e } := by
      simp only [validate_pair]
      rw [heval]
    rw [hv]
    obtain ⟨l, hl⟩ := err_head rule.rule_id e
    refine ⟨?_, fun _ => Or.inr ⟨e, rfl⟩, ne_empty_of_head hl,
      fun _ => ne_marker_of_head hl (by decide)⟩
    constructor
    · intro h
      simp at h
    · intro h
      exact absurd h (ne_marker_of_head hl (by decide))
  · cases htv : truthy v
    · have hv : validate_pair rule tx =
          { transaction_id := tx.id, rule_id := rule.rule_id, ok := false,
            message := "❌ " ++ fail_message rule } := by
        simp only [validate_pair]
        rw [heval]
        simp [htv]
      rw [hv]
      refine ⟨?_, fun _ => Or.inl rfl,
        ne_empty_of_head (failMarkerData (fail_message rule)),
        fun _ => ne_marker_of_head (failMarkerData (fail_message rule)) (by decide)⟩
      constructor
      · intro h
        simp at h
      · intro h
        exact absurd h
          (ne_marker_of_head (failMarkerData (fail_message rule)) (by decide))
    · have hv : validate_pair rule tx =
          { transaction_id := tx.id, rule_id := rule.rule_id, ok := true,
            message := "✅ OK" } := by
        simp only [validate_pair]
        rw [heval]
        simp [htv]
      rw [hv]
      refine ⟨⟨fun _ => rfl, fun _ => rfl⟩, ?_, ?_, ?_⟩
      · intro h
        simp at h
      · intro h
        exact List.noConfusion (congrArg String.data h)
      · intro h
        simp at h

/-- C7 (amended): an absent or blank `message_on_fail` never causes an error —
the outcome is always produced — but the generic `Validación fallida` default
of line 65 only applies to a row lacking the `message_on_fail` key, which the
required-column check makes impossible; a blank cell reads back as pandas
`NaN`, so the failing message renders as `❌ nan` (or is an evaluation-error
diagnostic when the formula itself failed). -/
theorem blank_fail_message_no_error (rule : RuleRow) (tx : Transaction)
    (hblank : rule.message_on_fail = none) :
    fail_message rule = "nan" ∧
    ((validate_pair rule tx).ok = false →
      (validate_pair rule tx).message = "❌ nan" ∨
      ∃ e, (validate_pair rule tx).message =
        "⚠️ Error evaluando regla " ++ rule.rule_id ++ ": " ++ e) := by
  have hfm : fail_message rule = "nan" := by
    simp [fail_message, hblank]
  refine ⟨hfm, ?_⟩
  intro hok
  rcases heval : simple_eval rule.formula
      (buildContext tx (parse_fields_required rule.fields_required)) with e | v
  · right
    refine ⟨e, ?_⟩
    simp only [validate_pair]
    rw [heval]
  · left
    have hv : validate_pair rule tx =
        { transaction_id := tx.id, rule_id := rule.rule_id, ok := truthy v,
          message := if truthy v then "✅ OK" else "❌ " ++ fail_message rule } := by
      simp only [validate_pair]
      rw [heval]
    rw [hv] at hok
    have htv : truthy v = false := hok
    rw [hv, htv, hfm]
    rfl

/-- Witness for the amended C7: the blank-message rule `exRuleBlank` fails on
transaction 7 with the message `❌ nan`. -/
theorem blank_fail_message_no_error_witness :
    fail_message exRuleBlank = "nan" ∧
    ((validate_pair exRuleBlank exTx7).ok = false →
      (validate_pair exRuleBlank exTx7).message = "❌ nan" ∨
      ∃ e, (validate_pair exRuleBlank exTx7).message =
        "⚠️ Error evaluando regla " ++ exRuleBlank.rule_id ++ ": " ++ e) :=
  blank_fail_message_no_error exRuleBlank exTx7 rfl

/-- Witness for C10 at the failing outcome of scenario B. -/
theorem outcome_message_invariant_witness :
    ((validate_pair exRuleR1 exTx8).ok = true ↔
      (validate_pair exRuleR1 exTx8).message = "✅ OK") ∧
    ((validate_pair exRuleR1 exTx8).ok = false →
      ((validate_pair exRuleR1 exTx8).message = "❌ " ++ fail_message exRuleR1 ∨
       ∃ e, (validate_pair exRuleR1 exTx8).message =
         "⚠️ Error evaluando regla " ++ exRuleR1.rule_id ++ ": " ++ e)) ∧
    (validate_pair exRuleR1 exTx8).message ≠ "" ∧
    ((validate_pair exRuleR1 exTx8).ok = false →
      (validate_pair exRuleR1 exTx8).message ≠ "✅ OK") :=
  outcome_message_invariant exRuleR1 exTx8
